import Mathlib

/-!
Shallow embedding of the fx-cli response-normalization layer, error model,
object service and profile store, with proofs about the claims of the
natural-language specification.

Sources embedded (TypeScript):
  * `src/models/response.ts` — `ApiResponse`, `ResponseFactory`, envelope types
  * `src/models/parser.ts`   — `FxiaokeResponseParser`
  * `src/models/error.ts`    — `FxiaokeApiError.isRetryable`
  * `src/services/object.ts` — `ObjectService.getCurrentOpenUserId` /
                               `handleObjectListResponse`
  * `src/config/manager.ts`  — `ConfigManager`
  * `src/config/types.ts`    — `Profile`, `Config`

Runtime JSON payloads are modelled by the `Json` type below (JavaScript
`undefined` is modelled as `Option.none` where a field may be absent).
Numbers are modelled as `Int` — every number the claims exercise is
integral.  `timestamp: Date.now()` fields are omitted from the result
models: they are wall-clock nondeterminism and no claim concerns them.
-/

/-- A runtime JSON / JavaScript value.  `obj` keeps fields in insertion
order, mirroring JavaScript object property order for the string keys that
actually occur in this program. -/
inductive Json where
  | null : Json
  | bool : Bool → Json
  | num : Int → Json
  | str : String → Json
  | arr : List Json → Json
  | obj : List (String × Json) → Json

/-- Property read `v[k]`: `some` is the field's value, `none` is JavaScript
`undefined` (absent field, or any read off a non-object primitive).
Reads off `null` throw in JavaScript; callers model that branch
explicitly (see `jsIsNull`). -/
def jsGet : Json → String → Option Json
  | .obj fields, k => fields.lookup k
  | _, _ => none

/-- JavaScript truthiness of a value. -/
def truthy : Json → Bool
  | .null => false
  | .bool b => b
  | .num n => n != 0
  | .str s => s != ""
  | .arr _ => true
  | .obj _ => true

/-- Truthiness of a possibly-`undefined` value (`undefined` is falsy). -/
def truthyOpt : Option Json → Bool
  | none => false
  | some v => truthy v

/-- The value of `a || d` where `a` may be `undefined`: the left value when
truthy, otherwise the right value. -/
def jsOrValue (a : Option Json) (d : Json) : Json :=
  match a with
  | some v => if truthy v then v else d
  | none => d

/-- The value of `a || b` on possibly-`undefined` values: the left value
when truthy, otherwise the right operand (even when that is falsy). -/
def jsOr (a b : Option Json) : Option Json :=
  match a with
  | some v => if truthy v then some v else b
  | none => b

/-- Is the value `null`?  Used to model the property reads that throw a
`TypeError` in JavaScript. -/
def jsIsNull : Json → Bool
  | .null => true
  | _ => false

/-- Does `v` satisfy `v && typeof v === 'object'` (a truthy object, i.e. a
plain object or an array; `null` has typeof object but is falsy)? -/
def isTruthyObject : Json → Bool
  | .obj _ => true
  | .arr _ => true
  | _ => false

mutual

/-- JavaScript string coercion (template-literal rendering) of a value. -/
def jsToString : Json → String
  | .null => "null"
  | .bool true => "true"
  | .bool false => "false"
  | .num n => toString n
  | .str s => s
  | .arr xs => jsArrToString xs
  | .obj _ => "[object Object]"

/-- `Array.prototype.toString`: elements joined by commas, `null` elements
rendered as the empty string. -/
def jsArrToString : List Json → String
  | [] => ""
  | [.null] => ""
  | [.bool b] => jsToString (.bool b)
  | [.num n] => jsToString (.num n)
  | [.str s] => s
  | [.arr xs] => jsArrToString xs
  | [.obj _] => "[object Object]"
  | .null :: x :: xs => "," ++ jsArrToString (x :: xs)
  | y :: x :: xs => jsToString y ++ "," ++ jsArrToString (x :: xs)

end

/-- Rendering of a possibly-`undefined` value in a template literal. -/
def jsToStringOpt : Option Json → String
  | none => "undefined"
  | some v => jsToString v

/-- `response.ts` `ApiResponse<T>`: either a `SuccessResponse` (`success:
true` with `data` and `status`) or an `ErrorResponse` (`success: false`
with `error` and optional `errorCode` / `errorMessage` / `status`).
`data : Option Json` distinguishes a JavaScript `undefined` payload
(`none`) from every real value. -/
inductive ApiResponse where
  | ok (data : Option Json) (status : Nat) : ApiResponse
  | err (error : String) (errorCode : Option Json) (errorMessage : Option Json)
      (status : Option Nat) : ApiResponse

namespace FxiaokeResponseParser

/-- `parser.ts` `isFxiaokeApiResponse`: the value is truthy, has typeof
`object`, its `errorCode` is a number and its `errorMessage` a string. -/
def isFxiaokeApiResponse (response : Json) : Bool :=
  truthy response &&
  (match response with | .obj _ => true | .arr _ => true | .null => true | _ => false) &&
  (match jsGet response "errorCode" with | some (.num _) => true | _ => false) &&
  (match jsGet response "errorMessage" with | some (.str _) => true | _ => false)

/-- Does the payload's `errorCode` field hold exactly the number `0`
(the strict comparison `errorCode !== 0` negated)? -/
def errorCodeIsZero (response : Json) : Bool :=
  match jsGet response "errorCode" with
  | some (.num 0) => true
  | _ => false

/-- `parser.ts` `parseFxiaokeResponse`: `errorCode !== 0` produces the
error response with the formatted message; otherwise a success carrying
the envelope's `data` field. -/
def parseFxiaokeResponse (response : Json) : ApiResponse :=
  if errorCodeIsZero response then
    .ok (jsGet response "data") 200
  else
    .err ("Fxiaoke API Error (" ++ jsToStringOpt (jsGet response "errorCode") ++ "): "
            ++ jsToStringOpt (jsGet response "errorMessage"))
      (jsGet response "errorCode") (jsGet response "errorMessage") none

/-- `parser.ts` `parse`: delegate envelopes to `parseFxiaokeResponse`,
treat everything else as a generic success with status 200.  The `try`
body cannot throw (its property reads are guarded by the truthiness
check), so the `catch` branch is dead and not modelled. -/
def parse (rawResponse : Json) : ApiResponse :=
  if isFxiaokeApiResponse rawResponse then
    parseFxiaokeResponse rawResponse
  else
    .ok (some rawResponse) 200

/-- `response.ts` `FxiaokeAuthData`: the three fields extracted by
`parseAuthResponse` from the envelope's top level (each may be a
JavaScript `undefined`, hence `Option`). -/
structure FxiaokeAuthData where
  corpAccessToken : Option Json
  corpId : Option Json
  expiresIn : Option Json

/-- Result of `parseAuthResponse` (`ApiResponse<FxiaokeAuthData>`). -/
inductive AuthParseResult where
  | ok (data : FxiaokeAuthData) (status : Nat) : AuthParseResult
  | err (error : String) (errorCode : Option Json) (errorMessage : Option Json) :
      AuthParseResult

/-- `parser.ts` `parseAuthResponse`: reject non-envelopes, propagate
API errors, then extract and validate `corpAccessToken` / `corpId` /
`expiresIn` from the envelope's top level. -/
def parseAuthResponse (rawResponse : Json) : AuthParseResult :=
  if isFxiaokeApiResponse rawResponse then
    if errorCodeIsZero rawResponse then
      let authData : FxiaokeAuthData :=
        { corpAccessToken := jsGet rawResponse "corpAccessToken"
          corpId := jsGet rawResponse "corpId"
          expiresIn := jsGet rawResponse "expiresIn" }
      if truthyOpt authData.corpAccessToken && truthyOpt authData.corpId then
        .ok authData 200
      else
        .err "Authentication response missing required fields (corpAccessToken, corpId)"
          none none
    else
      .err ("Fxiaoke API Error (" ++ jsToStringOpt (jsGet rawResponse "errorCode") ++ "): "
              ++ jsToStringOpt (jsGet rawResponse "errorMessage"))
        (jsGet rawResponse "errorCode") (jsGet rawResponse "errorMessage")
  else
    .err "Response is not in Fxiaoke API format" none none

end FxiaokeResponseParser

namespace FxiaokeApiError

/-- `error.ts`: the fixed table of retryable Fxiaoke error codes. -/
def retryableCodes : List Int := [10001, 10002, 10003, 500, 502, 503, 504]

/-- `error.ts` `FxiaokeApiError.isRetryable`: membership in the fixed
table (the constructor stores the numeric `errorCode` unchanged, so
`Number(this.errorCode)` is the code itself). -/
def isRetryable (errorCode : Int) : Bool :=
  retryableCodes.contains errorCode

end FxiaokeApiError

namespace FxiaokeResponseParser

/-- `response.ts` `FxiaokeApiResponse` as the typed interface the
retryability helpers receive. -/
structure FxiaokeApiResponseT where
  errorCode : Int
  errorMessage : String
  errorDescription : Option String := none
  traceId : Option String := none

/-- `parser.ts` `isRetryableError`: `false` on `errorCode === 0`,
otherwise the `FxiaokeApiError` retryability rule. -/
def isRetryableError (response : FxiaokeApiResponseT) : Bool :=
  if response.errorCode = 0 then false
  else FxiaokeApiError.isRetryable response.errorCode

end FxiaokeResponseParser

/-- A single-quote character as a string (U+0027), used in error messages. -/
def squote : String := String.singleton (Char.ofNat 39)

namespace JsDate

/-- Largest valid JavaScript time value in milliseconds (8.64e15);
beyond it a `Date` is invalid and `toISOString` throws a
`RangeError: Invalid time value`. -/
def maxTimeValue : Int := 8640000000000000

/-- Zero-pad a number below 100 to two digits. -/
def pad2 (n : Nat) : String :=
  if n < 10 then "0" ++ toString n else toString n

/-- Zero-pad a number below 1000 to three digits. -/
def pad3 (n : Nat) : String :=
  if n < 10 then "00" ++ toString n
  else if n < 100 then "0" ++ toString n
  else toString n

/-- Zero-pad a year in 0..9999 to four digits (the only range the embedded
program produces). -/
def pad4 (y : Int) : String :=
  let n := y.toNat
  if n < 10 then "000" ++ toString n
  else if n < 100 then "00" ++ toString n
  else if n < 1000 then "0" ++ toString n
  else toString n

/-- Proleptic-Gregorian civil date from days since 1970-01-01
(the standard era-based conversion used by every date library). -/
def civilFromDays (z : Int) : Int × Nat × Nat :=
  let z2 := z + 719468
  let era : Int := z2 / 146097
  let doe : Nat := (z2 - era * 146097).toNat
  let yoe : Nat := (doe - doe / 1460 + doe / 36524 - doe / 146096) / 365
  let y : Int := (yoe : Int) + era * 400
  let doy : Nat := doe - (365 * yoe + yoe / 4 - yoe / 100)
  let mp : Nat := (5 * doy + 2) / 153
  let d : Nat := doy - (153 * mp + 2) / 5 + 1
  let m : Nat := if mp < 10 then mp + 3 else mp - 9
  (if m ≤ 2 then y + 1 else y, m, d)

/-- `new Date(ms).toISOString()` for a millisecond time value. -/
def toISOString (ms : Int) : String :=
  let msPart : Nat := (ms % 1000).toNat
  let totalSec : Int := (ms - ms % 1000) / 1000
  let sod : Nat := (totalSec % 86400).toNat
  let days : Int := (totalSec - totalSec % 86400) / 86400
  let ymd := civilFromDays days
  pad4 ymd.1 ++ "-" ++ pad2 ymd.2.1 ++ "-" ++ pad2 ymd.2.2 ++ "T"
    ++ pad2 (sod / 3600) ++ ":" ++ pad2 (sod % 3600 / 60) ++ ":" ++ pad2 (sod % 60)
    ++ "." ++ pad3 msPart ++ "Z"

/-- `new Date(v).toISOString()` on a runtime value: a numeric time value
inside the valid range yields the ISO string, an out-of-range number
throws `Invalid time value`.  Non-numeric arguments are modelled as
invalid as well (JavaScript can parse some date strings; no claim and no
payload in this program exercises that, and the claims' counterexample
uses a numeric value). -/
def newDateToISO : Json → Except String String
  | .num n => if n.natAbs ≤ maxTimeValue.natAbs then .ok (toISOString n)
              else .error "Invalid time value"
  | _ => .error "Invalid time value"

end JsDate

namespace ObjectService

/-- V8's `TypeError` message for reading `errorCode` off `null`. -/
def nullReadErrorCodeMsg : String :=
  "Cannot read properties of null (reading " ++ squote ++ "errorCode" ++ squote ++ ")"

/-- V8's `TypeError` message for reading `openUserId` off a `null` first
`empList` element. -/
def nullReadOpenUserIdMsg : String :=
  "Cannot read properties of null (reading " ++ squote ++ "openUserId" ++ squote ++ ")"

/-- V8's `TypeError` message for reading `describeApiName` off a `null`
element of `data.objects` (the first property the reshaping reads). -/
def nullReadDescribeApiNameMsg : String :=
  "Cannot read properties of null (reading " ++ squote ++ "describeApiName" ++ squote ++ ")"

/-- `object.ts`: `rawData.errorMessage || rawData.errorDescription ||
'Unknown error'`, rendered into the template literal. -/
def apiErrorMsg (rawData : Json) : String :=
  jsToString (jsOrValue (jsGet rawData "errorMessage")
    (jsOrValue (jsGet rawData "errorDescription") (.str "Unknown error")))

/-- `object.ts` `handleObjectListResponse`, per-object remapping of the
rich `data.objects` shape: `describeApiName→id`, `describeDisplayName→
name`, `defineType→objectType`, with `|| 'N/A'` defaults; `createTime` /
`updateTime` converted through `new Date(...).toISOString()` when truthy
(which throws on an invalid time value); `isActive || false`.  A `null`
element makes the first property read (`describeApiName`) throw a
`TypeError`. -/
def reshapeObject (o : Json) : Except String Json := do
  if jsIsNull o then throw nullReadDescribeApiNameMsg
  let createdAt : Json ←
    match jsGet o "createTime" with
    | some v => if truthy v then (JsDate.newDateToISO v).map Json.str
                else pure (.str "N/A")
    | none => pure (.str "N/A")
  let updatedAt : Json ←
    match jsGet o "updateTime" with
    | some v => if truthy v then (JsDate.newDateToISO v).map Json.str
                else pure (.str "N/A")
    | none => pure (.str "N/A")
  pure (.obj [
    ("id", jsOrValue (jsGet o "describeApiName") (.str "N/A")),
    ("name", jsOrValue (jsGet o "describeDisplayName") (.str "N/A")),
    ("objectType", jsOrValue (jsGet o "defineType") (.str "N/A")),
    ("createdAt", createdAt),
    ("updatedAt", updatedAt),
    ("isActive", jsOrValue (jsGet o "isActive") (.bool false))])

/-- `Array.prototype.map` over `reshapeObject`: the first thrown error
escapes the whole map. -/
def reshapeAll : List Json → Except String (List Json)
  | [] => .ok []
  | o :: os =>
    match reshapeObject o with
    | .error e => .error e
    | .ok r =>
      match reshapeAll os with
      | .error e => .error e
      | .ok rs => .ok (r :: rs)

/-- Top-level fallback of the object-array extraction: `rawData.objects`
then `rawData.list`, used as-is when arrays, else the empty list. -/
def topLevelObjectArray (rawData : Json) : List Json :=
  match jsGet rawData "objects" with
  | some (.arr os) => os
  | _ =>
    match jsGet rawData "list" with
    | some (.arr os) => os
    | _ => []

/-- `object.ts`: object-array extraction.  When `rawData.data` is a truthy
object: a `data.objects` array is remapped element-wise, a `data.list`
array is used as-is, anything else gives the empty list (no top-level
fallback).  Otherwise the top-level `objects` / `list` fallback applies. -/
def extractObjects (rawData : Json) : Except String (List Json) :=
  match jsGet rawData "data" with
  | some d =>
    if isTruthyObject d then
      match jsGet d "objects" with
      | some (.arr os) => reshapeAll os
      | _ =>
        match jsGet d "list" with
        | some (.arr os) => .ok os
        | _ => .ok []
    else .ok (topLevelObjectArray rawData)
  | none => .ok (topLevelObjectArray rawData)

/-- Pagination: `totalCount` → `total` → `count` → `objects.length`. -/
def extractTotalCount (rawData : Json) (objects : List Json) : Int :=
  match jsGet rawData "totalCount" with
  | some (.num n) => n
  | _ =>
    match jsGet rawData "total" with
    | some (.num n) => n
    | _ =>
      match jsGet rawData "count" with
      | some (.num n) => n
      | _ => (objects.length : Int)

/-- Pagination: numeric `pageSize`, default 20. -/
def extractPageSize (rawData : Json) : Int :=
  match jsGet rawData "pageSize" with
  | some (.num n) => n
  | _ => 20

/-- Pagination: numeric `pageNumber` → `page`, default 1. -/
def extractPageNumber (rawData : Json) : Int :=
  match jsGet rawData "pageNumber" with
  | some (.num n) => n
  | _ =>
    match jsGet rawData "page" with
    | some (.num n) => n
    | _ => 1

/-- `hasMore` → `nextPage` boolean fields, default `false`. -/
def extractHasMore (rawData : Json) : Bool :=
  match jsGet rawData "hasMore" with
  | some (.bool b) => b
  | _ =>
    match jsGet rawData "nextPage" with
    | some (.bool b) => b
    | _ => false

/-- `object.ts` `ObjectListResponse`. -/
structure ObjectListResponse where
  objects : List Json
  totalCount : Int
  pageSize : Int
  pageNumber : Int
  hasMore : Bool

/-- `ApiResponse<ObjectListResponse>` as returned by
`handleObjectListResponse`. -/
inductive ObjectListParseResult where
  | success (data : ObjectListResponse) (status : Nat) : ObjectListParseResult
  | failure (error : String) : ObjectListParseResult

/-- `object.ts` `handleObjectListResponse`.  A `null` payload makes the
first property read throw, which the surrounding `catch` converts to a
`Failed to parse object list response:` failure.  An `errorCode` other
than the number `0` yields the `API Error:` failure.  Otherwise the
tolerant extraction runs; a thrown `Invalid time value` is converted by
the same `catch`. -/
def handleObjectListResponse (apiData : Json) : ObjectListParseResult :=
  if jsIsNull apiData then
    .failure ("Failed to parse object list response: " ++ nullReadErrorCodeMsg)
  else if FxiaokeResponseParser.errorCodeIsZero apiData then
    match extractObjects apiData with
    | .error e => .failure ("Failed to parse object list response: " ++ e)
    | .ok objects =>
      .success
        { objects := objects
          totalCount := extractTotalCount apiData objects
          pageSize := extractPageSize apiData
          pageNumber := extractPageNumber apiData
          hasMore := extractHasMore apiData } 200
  else
    .failure ("API Error: " ++ apiErrorMsg apiData)

/-- `ApiResponse<string>` as returned by the identity extraction. -/
inductive UserIdResult where
  | success (data : String) (status : Nat) : UserIdResult
  | failure (error : String) : UserIdResult
deriving DecidableEq

/-- Outcome of the `empList` preference step: reading `openUserId` off a
`null` first element throws a `TypeError` in the source (`throws`);
otherwise the read yields a value (`value`, with `none` for JavaScript
`undefined` — also when `empList` is absent, not an array, or empty, in
which case the read never happens). -/
inductive EmpListStep where
  | throws : EmpListStep
  | value (v : Option Json) : EmpListStep

/-- `object.ts` `getCurrentOpenUserId`: the preferred candidate, the first
`empList` element's `openUserId` (read only when `empList` is a non-empty
array; the read throws when that element is `null`). -/
def empCandidate (rawData : Json) : EmpListStep :=
  match jsGet rawData "empList" with
  | some (.arr (e :: _)) =>
    if jsIsNull e then .throws else .value (jsGet e "openUserId")
  | _ => .value none

/-- `object.ts` `getCurrentOpenUserId`: the fallback chain
`rawData.currentOpenUserId || rawData.userId || rawData.id`. -/
def fallbackChain (rawData : Json) : Option Json :=
  jsOr (jsGet rawData "currentOpenUserId") (jsOr (jsGet rawData "userId") (jsGet rawData "id"))

/-- `object.ts` `getCurrentOpenUserId`, the response-processing part
(after the transport call).  Mirrors the source line by line: `null`
payload → the catch branch on the `errorCode` read; non-zero / absent
`errorCode` → `API Error:`; a `null` first `empList` element → the catch
branch on the `openUserId` read (no fallback); otherwise the `empList`
candidate, replaced by the fallback chain's value when falsy and the
fallback is a string; a final value that is a non-empty string succeeds,
anything else fails `Response missing currentOpenUserId`. -/
def getCurrentOpenUserIdExtract (rawData : Json) : UserIdResult :=
  if jsIsNull rawData then
    .failure ("Get user ID error: " ++ nullReadErrorCodeMsg)
  else if FxiaokeResponseParser.errorCodeIsZero rawData then
    match empCandidate rawData with
    | .throws => .failure ("Get user ID error: " ++ nullReadOpenUserIdMsg)
    | .value cur0 =>
      let cur1 :=
        if truthyOpt cur0 then cur0
        else
          match fallbackChain rawData with
          | some (.str s) => some (.str s)
          | _ => cur0
      match cur1 with
      | some (.str s) => if s = "" then .failure "Response missing currentOpenUserId"
                         else .success s 200
      | _ => .failure "Response missing currentOpenUserId"
  else
    .failure ("API Error: " ++ apiErrorMsg rawData)

end ObjectService

/-- A profile field value as `config/types.ts` types it:
`string | number | undefined` (absent keys are simply not in the list). -/
inductive PrimVal where
  | s (v : String) : PrimVal
  | n (v : Int) : PrimVal
deriving DecidableEq, Repr

/-- `config/types.ts` `Profile`: an open record (`[key: string]: string |
number | undefined`) whose `name` is the value stored under the key
`"name"`.  Modelled as an association list in insertion order. -/
abbrev ProfileT := List (String × PrimVal)

/-- `config/types.ts` `Config`. -/
structure Config where
  profiles : List ProfileT
  currentProfile : String
  defaultTimeout : Int
  userAgent : String
deriving DecidableEq, Repr

namespace ConfigManager

/-- The profile's `name` property. -/
def pname (p : ProfileT) : Option PrimVal :=
  p.lookup "name"

/-- `manager.ts` `defaultConfig`. -/
def defaultConfig : Config :=
  { profiles := [[("name", PrimVal.s "default")]]
    currentProfile := "default"
    defaultTimeout := 30000
    userAgent := "fx-cli/1.0.0" }

/-- The persisted store: `none` when `~/.fxk/config.json` is absent or
unreadable/unparsable (the `load` fallback cases), `some c` when it holds
the serialization of `c` (which is exactly what `save` writes). -/
abbrev PState := Option Config

/-- `manager.ts` `load`: the persisted config, or the defaults when the
file is absent or unparsable. -/
def load (st : PState) : Config :=
  st.getD defaultConfig

/-- `manager.ts` `save`: persist the full config (the happy path; an I/O
failure throws and leaves no new state, which no claim exercises). -/
def save (config : Config) : PState :=
  some config

/-- `config.profiles.find(p => p.name === name)`. -/
def findProfile (config : Config) (name : String) : Option ProfileT :=
  config.profiles.find? (fun p => decide (pname p = some (PrimVal.s name)))

/-- `manager.ts` `getCurrentProfile`. -/
def getCurrentProfile (st : PState) : Option ProfileT :=
  findProfile (load st) (load st).currentProfile

/-- Error message `Profile '<name>' not found`. -/
def profileNotFound (name : String) : String :=
  "Profile " ++ squote ++ name ++ squote ++ " not found"

/-- `manager.ts` `setCurrentProfile`.  The pair is (resulting persisted
state, thrown error): on a missing profile the error is thrown before
`save`, so the persisted state is unchanged. -/
def setCurrentProfile (st : PState) (profileName : String) :
    PState × Option String :=
  let config := load st
  if (findProfile config profileName).isSome then
    (save { config with currentProfile := profileName }, none)
  else
    (st, some (profileNotFound profileName))

/-- `parseInt(value, 10)`: optional leading whitespace and sign, then a
non-empty digit prefix; `none` is `NaN`. -/
def parseIntJS (value : String) : Option Int :=
  let cs := value.toList.dropWhile (fun c =>
    c = ' ' || c = '\t' || c = '\n' || c = '\r')
  let digitsPrefix : List Char → Option Nat := fun l =>
    let ds := l.takeWhile Char.isDigit
    if ds.isEmpty then none
    else some (ds.foldl (fun a c => a * 10 + (c.toNat - 48)) 0)
  match cs with
  | '-' :: rest => (digitsPrefix rest).map (fun n => -(n : Int))
  | '+' :: rest => (digitsPrefix rest).map (fun n => (n : Int))
  | _ => (digitsPrefix cs).map (fun n => (n : Int))

/-- `profile[key] = v`: update the key in place if present, else append. -/
def assocSet : ProfileT → String → PrimVal → ProfileT
  | [], k, v => [(k, v)]
  | (k0, v0) :: rest, k, v =>
    if k0 = k then (k, v) :: rest else (k0, v0) :: assocSet rest k v

/-- Replace the first profile whose name matches, applying `f` to it. -/
def updateProfile (ps : List ProfileT) (name : String) (f : ProfileT → ProfileT) :
    List ProfileT :=
  match ps with
  | [] => []
  | p :: rest =>
    if pname p = some (PrimVal.s name) then f p :: rest
    else p :: updateProfile rest name f

/-- `manager.ts` `setProfileValue`.  The pair is (resulting persisted
state, thrown error).  `timeout` is parsed with `parseInt` and rejected
when `NaN` or negative; every other key stores the raw string. -/
def setProfileValue (st : PState) (profileName : String) (key : String)
    (value : String) : PState × Option String :=
  let config := load st
  if (findProfile config profileName).isSome then
    if key = "timeout" then
      match parseIntJS value with
      | none => (st, some "Timeout must be a positive number")
      | some numValue =>
        if numValue < 0 then (st, some "Timeout must be a positive number")
        else
          let ps := updateProfile config.profiles profileName
            (fun p => assocSet p key (PrimVal.n numValue))
          (save { config with profiles := ps }, none)
    else
      let ps := updateProfile config.profiles profileName
        (fun p => assocSet p key (PrimVal.s value))
      (save { config with profiles := ps }, none)
  else
    (st, some (profileNotFound profileName))

/-- `manager.ts` `getProfileValue`: `String(value)` of the field, `none`
(undefined) when unset; a missing profile throws. -/
def getProfileValue (st : PState) (profileName : String) (key : String) :
    Except String (Option String) :=
  let config := load st
  match findProfile config profileName with
  | none => .error (profileNotFound profileName)
  | some p =>
    .ok ((p.lookup key).map (fun v =>
      match v with
      | PrimVal.s s => s
      | PrimVal.n n => toString n))

/-- The Profile Store invariant of the specification: a profile named
`default` exists, profile names are unique, and the active-profile
pointer references an existing profile. -/
def StoreInvariant (config : Config) : Prop :=
  some (PrimVal.s "default") ∈ config.profiles.map pname ∧
  (config.profiles.map pname).Nodup ∧
  some (PrimVal.s config.currentProfile) ∈ config.profiles.map pname

instance (config : Config) : Decidable (StoreInvariant config) := by
  unfold StoreInvariant; infer_instance

/-- Persisted states reachable from the empty store through the store's
operations, with `setProfileValue` restricted to keys other than
`"name"` (the amendment claim C4 requires; the unrestricted operation
can rename a profile and break the invariant).  `save` appears as the
re-persist of an unmodified `load`; `load`, `getCurrentProfile` and
`getProfileValue` do not change the persisted state. -/
inductive ReachableNoRename : PState → Prop where
  | init : ReachableNoRename none
  | resave (st : PState) : ReachableNoRename st → ReachableNoRename (save (load st))
  | setCur (st : PState) (name : String) : ReachableNoRename st →
      ReachableNoRename (setCurrentProfile st name).1
  | setVal (st : PState) (name key value : String) : key ≠ "name" →
      ReachableNoRename st → ReachableNoRename (setProfileValue st name key value).1

end ConfigManager

namespace ConfigDoc

/-- `manager.ts` `defaultConfig` as the JSON document shape it serializes
to (property insertion order). -/
def defaultConfigFields : List (String × Json) :=
  [("profiles", .arr [.obj [("name", .str "default")]]),
   ("currentProfile", .str "default"),
   ("defaultTimeout", .num 30000),
   ("userAgent", .str "fx-cli/1.0.0")]

/-- The own enumerable fields a value contributes under object spread
(`{...v}`): an object's fields, an array's or string's indexed elements,
nothing for other primitives. -/
def jsonSpreadFields : Json → List (String × Json)
  | .obj fields => fields
  | .arr xs => xs.enum.map (fun p => (toString p.1, p.2))
  | .str s => s.toList.enum.map (fun p => (toString p.1, Json.str (String.singleton p.2)))
  | _ => []

/-- Object spread `{...base, ...overlay}`: base keys in base order with
overlay values overriding in place, then overlay-only keys appended in
overlay order. -/
def spreadMerge (base overlay : List (String × Json)) : List (String × Json) :=
  base.map (fun p =>
    match overlay.lookup p.1 with
    | some v => (p.1, v)
    | none => p)
  ++ overlay.filter (fun p => !((base.map Prod.fst).contains p.1))

/-- `manager.ts` `load` at the persisted-document level:
`{...defaultConfig, ...JSON.parse(data)}`, with `none` covering both the
absent file and an unparsable one (the `catch` fallback). -/
def loadDoc : Option Json → Json
  | none => .obj defaultConfigFields
  | some d => .obj (spreadMerge defaultConfigFields (jsonSpreadFields d))

/-- `manager.ts` `save` at the document level: the persisted document is
`JSON.stringify(config, null, 2)`, whose bytes are determined by the
config value and its field order, so it is identified with the value. -/
def saveDoc (config : Json) : Option Json :=
  some config

end ConfigDoc

section Lemmas

lemma errorCodeIsZero_false_of_ne (raw : Json) (c : Int)
    (hc : jsGet raw "errorCode" = some (.num c)) (hne : c ≠ 0) :
    FxiaokeResponseParser.errorCodeIsZero raw = false := by
  unfold FxiaokeResponseParser.errorCodeIsZero
  rw [hc]
  split
  · next h => exact absurd (by injection h with h2; injection h2) hne
  · rfl

lemma errorCodeIsZero_true_of_eq (raw : Json)
    (hc : jsGet raw "errorCode" = some (.num 0)) :
    FxiaokeResponseParser.errorCodeIsZero raw = true := by
  unfold FxiaokeResponseParser.errorCodeIsZero
  rw [hc]
  rfl

lemma isRetryable_mem_iff (c : Int) :
    FxiaokeApiError.isRetryable c = true ↔
      (c = 10001 ∨ c = 10002 ∨ c = 10003 ∨ c = 500 ∨ c = 502 ∨ c = 503 ∨ c = 504) := by
  simp [FxiaokeApiError.isRetryable, FxiaokeApiError.retryableCodes]

namespace ConfigManager

lemma pname_assocSet (p : ProfileT) (k : String) (v : PrimVal) (hk : k ≠ "name") :
    pname (assocSet p k v) = pname p := by
  induction p with
  | nil =>
    have : ("name" == k) = false := by
      simp
      exact fun h => hk h.symm
    simp [assocSet, pname, List.lookup, this]
  | cons head tail ih =>
    obtain ⟨k0, v0⟩ := head
    by_cases hkk : k0 = k
    · subst hkk
      simp [assocSet, pname, List.lookup]
      have : ("name" == k0) = false := by
        simp
        exact fun h => hk h.symm
      simp [this, pname] at ih ⊢
    · simp [assocSet, hkk, pname, List.lookup]
      by_cases hn : ("name" : String) = k0
      · simp [hn]
      · have : ("name" == k0) = false := by simp [hn]
        simp [this]
        simpa [pname] using ih

lemma map_pname_updateProfile (ps : List ProfileT) (name : String) (f : ProfileT → ProfileT)
    (hf : ∀ p, pname (f p) = pname p) :
    (updateProfile ps name f).map pname = ps.map pname := by
  induction ps with
  | nil => rfl
  | cons p rest ih =>
    by_cases hp : pname p = some (PrimVal.s name)
    · simp [updateProfile, hp, hf]
    · simp [updateProfile, hp, ih]

lemma assocSet_lookup_self (p : ProfileT) (k : String) (v : PrimVal) :
    (assocSet p k v).lookup k = some v := by
  induction p with
  | nil => simp [assocSet, List.lookup]
  | cons head tail ih =>
    obtain ⟨k0, v0⟩ := head
    by_cases hkk : k0 = k
    · subst hkk
      simp [assocSet, List.lookup]
    · simp [assocSet, hkk, List.lookup]
      have : (k == k0) = false := by simp; exact fun h => hkk h.symm
      simp [this, ih]

lemma findProfile_mem_names (c : Config) (name : String) (p : ProfileT)
    (hp : findProfile c name = some p) :
    some (PrimVal.s name) ∈ c.profiles.map pname := by
  unfold findProfile at hp
  have hmem := List.mem_of_find?_eq_some hp
  have h0 := List.find?_some hp
  have hpn : pname p = some (PrimVal.s name) := of_decide_eq_true h0
  rw [← hpn]
  exact List.mem_map_of_mem pname hmem

lemma storeInvariant_setField (c : Config) (name key : String) (v : PrimVal)
    (hkey : key ≠ "name") (h : StoreInvariant c) :
    StoreInvariant { c with profiles := updateProfile c.profiles name (fun p => assocSet p key v) } := by
  obtain ⟨h1, h2, h3⟩ := h
  refine ⟨?_, ?_, ?_⟩ <;>
    simp only [map_pname_updateProfile _ _ _ (fun p => pname_assocSet p _ _ hkey)] <;>
    assumption

lemma storeInvariant_setCurrentProfile (st : PState) (name : String)
    (h : StoreInvariant (load st)) :
    StoreInvariant (load (setCurrentProfile st name).1) := by
  simp only [setCurrentProfile]
  split
  · next hf =>
    obtain ⟨p, hp⟩ := Option.isSome_iff_exists.mp hf
    have hmem := findProfile_mem_names _ _ _ hp
    obtain ⟨h1, h2, h3⟩ := h
    refine ⟨?_, ?_, ?_⟩
    · simpa [load, save] using h1
    · simpa [load, save] using h2
    · simpa [load, save] using hmem
  · exact h

lemma storeInvariant_setProfileValue (st : PState) (name key value : String)
    (hkey : key ≠ "name") (h : StoreInvariant (load st)) :
    StoreInvariant (load (setProfileValue st name key value).1) := by
  simp only [setProfileValue]
  split
  · split
    · next hk =>
      subst hk
      split
      · exact h
      · split
        · exact h
        · simpa [load, save] using
            storeInvariant_setField (load st) name "timeout" (PrimVal.n _) hkey h
    · simpa [load, save] using
        storeInvariant_setField (load st) name key (PrimVal.s value) hkey h
  · exact h

end ConfigManager

namespace ConfigDoc

lemma spreadMerge_default_idem (f : List (String × Json)) :
    spreadMerge defaultConfigFields (spreadMerge defaultConfigFields f) =
      spreadMerge defaultConfigFields f := by
  rcases h1 : List.lookup "profiles" f with _ | v1 <;>
  rcases h2 : List.lookup "currentProfile" f with _ | v2 <;>
  rcases h3 : List.lookup "defaultTimeout" f with _ | v3 <;>
  rcases h4 : List.lookup "userAgent" f with _ | v4 <;>
  simp [spreadMerge, defaultConfigFields, h1, h2, h3, h4, List.lookup,
    List.filter_append, List.filter_filter]

lemma loadDoc_idem (st : Option Json) :
    loadDoc (some (loadDoc st)) = loadDoc st := by
  cases st with
  | none => rfl
  | some d => exact congrArg Json.obj (spreadMerge_default_idem (jsonSpreadFields d))

end ConfigDoc

namespace ObjectService

/-- The object-list element of the specification's reshaping scenario. -/
def acctRawObject : Json :=
  .obj [("describeApiName", .str "acct_1"), ("describeDisplayName", .str "Acct One"),
    ("defineType", .str "custom"), ("createTime", .num 1700000000000)]

/-- Its reshaped form (`createTime` 1700000000000 ms is
2023-11-14T22:13:20.000Z). -/
def acctReshaped : Json :=
  .obj [("id", .str "acct_1"), ("name", .str "Acct One"), ("objectType", .str "custom"),
    ("createdAt", .str "2023-11-14T22:13:20.000Z"), ("updatedAt", .str "N/A"),
    ("isActive", .bool false)]

end ObjectService

end Lemmas

/-- C1 counterexample: on the envelope with errorCode 1 and errorMessage
"bad", `parse` produces the error string "Fxiaoke API Error (1): bad",
which is not the claimed "API Error (1): bad". -/
theorem c1_counterexample :
    FxiaokeResponseParser.parse (.obj [("errorCode", .num 1), ("errorMessage", .str "bad")]) =
      .err "Fxiaoke API Error (1): bad" (some (.num 1)) (some (.str "bad")) none ∧
    "Fxiaoke API Error (1): bad" ≠ "API Error (1): bad" :=
  ⟨rfl, by decide⟩

/-- C1 (amended): for every raw payload, if it is an error envelope (numeric
errorCode, string errorMessage) with errorCode not 0, `parse` returns
Failure with error string "Fxiaoke API Error (<code>): <message>" and
errorCode/errorMessage populated; with errorCode 0 it returns Success with
data equal to the envelope's data field; every non-envelope input
(including null) yields Success wrapping the input unchanged with status
200.  `parse` is a total function, so it never raises. -/
theorem c1_parse_normalization (raw : Json) :
    (∀ c m, jsGet raw "errorCode" = some (.num c) →
      jsGet raw "errorMessage" = some (.str m) →
      FxiaokeResponseParser.isFxiaokeApiResponse raw = true →
      (c ≠ 0 → FxiaokeResponseParser.parse raw =
        .err ("Fxiaoke API Error (" ++ toString c ++ "): " ++ m)
          (some (.num c)) (some (.str m)) none) ∧
      (c = 0 → FxiaokeResponseParser.parse raw = .ok (jsGet raw "data") 200)) ∧
    (FxiaokeResponseParser.isFxiaokeApiResponse raw = false →
      FxiaokeResponseParser.parse raw = .ok (some raw) 200) := by
  constructor
  · intro c m hc hm hfx
    constructor
    · intro hne
      have hz := errorCodeIsZero_false_of_ne raw c hc hne
      simp [FxiaokeResponseParser.parse, hfx, FxiaokeResponseParser.parseFxiaokeResponse,
        hz, hc, hm, jsToStringOpt, jsToString]
    · intro h0
      subst h0
      have hz := errorCodeIsZero_true_of_eq raw hc
      simp [FxiaokeResponseParser.parse, hfx, FxiaokeResponseParser.parseFxiaokeResponse, hz]
  · intro hfx
    simp [FxiaokeResponseParser.parse, hfx]

/-- C1 witness: the amended theorem applied to the concrete envelope with
errorCode 7 and to a plain string payload. -/
theorem c1_witness :
    FxiaokeResponseParser.parse (.obj [("errorCode", .num 7), ("errorMessage", .str "boom")]) =
      .err ("Fxiaoke API Error (" ++ toString (7 : Int) ++ "): " ++ "boom")
        (some (.num 7)) (some (.str "boom")) none ∧
    FxiaokeResponseParser.parse (.str "hello") = .ok (some (.str "hello")) 200 :=
  ⟨((c1_parse_normalization
      (.obj [("errorCode", .num 7), ("errorMessage", .str "boom")])).1
        7 "boom" rfl rfl rfl).1 (by decide),
   (c1_parse_normalization (.str "hello")).2 rfl⟩

/-- C2: for every envelope, the retryability check returns true exactly
when its numeric error code is one of 10001, 10002, 10003, 500, 502, 503,
504 — both for the parser's `isRetryableError` (which short-circuits
errorCode 0 to false) and for `FxiaokeApiError.isRetryable` itself. -/
theorem c2_isRetryable_iff_member (response : FxiaokeResponseParser.FxiaokeApiResponseT) :
    (FxiaokeResponseParser.isRetryableError response = true ↔
      (response.errorCode = 10001 ∨ response.errorCode = 10002 ∨
       response.errorCode = 10003 ∨ response.errorCode = 500 ∨
       response.errorCode = 502 ∨ response.errorCode = 503 ∨
       response.errorCode = 504)) ∧
    (FxiaokeApiError.isRetryable response.errorCode = true ↔
      (response.errorCode = 10001 ∨ response.errorCode = 10002 ∨
       response.errorCode = 10003 ∨ response.errorCode = 500 ∨
       response.errorCode = 502 ∨ response.errorCode = 503 ∨
       response.errorCode = 504)) := by
  constructor
  · unfold FxiaokeResponseParser.isRetryableError
    by_cases h0 : response.errorCode = 0
    · simp [h0]
    · simp [h0, isRetryable_mem_iff]
  · exact isRetryable_mem_iff response.errorCode

/-- C3 counterexample: the flat auth envelope carrying `accessToken` (the
claim's field name) is rejected for missing `corpAccessToken`, and a
non-envelope is rejected with "Response is not in Fxiaoke API format",
not the claimed "Response is not in API format". -/
theorem c3_counterexample :
    FxiaokeResponseParser.parseAuthResponse (.obj [("errorCode", .num 0),
        ("errorMessage", .str "ok"), ("accessToken", .str "t"), ("corpId", .str "c"),
        ("expiresIn", .num 7200)]) =
      .err "Authentication response missing required fields (corpAccessToken, corpId)"
        none none ∧
    FxiaokeResponseParser.parseAuthResponse (.obj [("message", .str "Hello")]) =
      .err "Response is not in Fxiaoke API format" none none ∧
    "Response is not in Fxiaoke API format" ≠ "Response is not in API format" :=
  ⟨rfl, rfl, by decide⟩

/-- C3 (amended): `parseAuthResponse` returns Failure "Response is not in
Fxiaoke API format" for every non-envelope input; for an envelope with
errorCode 0 it fails with "Authentication response missing required
fields (corpAccessToken, corpId)" whenever `corpAccessToken` or `corpId`
is absent or falsy (e.g. empty), and otherwise returns Success carrying
exactly the three top-level fields `corpAccessToken`, `corpId`,
`expiresIn`. -/
theorem c3_parseAuthResponse (raw : Json) :
    (FxiaokeResponseParser.isFxiaokeApiResponse raw = false →
      FxiaokeResponseParser.parseAuthResponse raw =
        .err "Response is not in Fxiaoke API format" none none) ∧
    (FxiaokeResponseParser.isFxiaokeApiResponse raw = true →
      FxiaokeResponseParser.errorCodeIsZero raw = true →
      ((truthyOpt (jsGet raw "corpAccessToken") = false ∨
        truthyOpt (jsGet raw "corpId") = false) →
        FxiaokeResponseParser.parseAuthResponse raw =
          .err "Authentication response missing required fields (corpAccessToken, corpId)"
            none none) ∧
      (truthyOpt (jsGet raw "corpAccessToken") = true →
        truthyOpt (jsGet raw "corpId") = true →
        FxiaokeResponseParser.parseAuthResponse raw =
          .ok ⟨jsGet raw "corpAccessToken", jsGet raw "corpId", jsGet raw "expiresIn"⟩ 200)) := by
  constructor
  · intro hfx
    simp [FxiaokeResponseParser.parseAuthResponse, hfx]
  · intro hfx hz
    constructor
    · intro hmiss
      rcases hmiss with hmiss | hmiss <;>
        simp [FxiaokeResponseParser.parseAuthResponse, hfx, hz, hmiss]
    · intro h1 h2
      simp [FxiaokeResponseParser.parseAuthResponse, hfx, hz, h1, h2]

/-- C3 witness: the amended theorem applied to a complete flat envelope,
to the same envelope missing `corpAccessToken`, and to a non-envelope. -/
theorem c3_witness :
    FxiaokeResponseParser.parseAuthResponse (.obj [("errorCode", .num 0),
        ("errorMessage", .str "ok"), ("corpAccessToken", .str "t"), ("corpId", .str "c"),
        ("expiresIn", .num 7200)]) =
      .ok ⟨some (.str "t"), some (.str "c"), some (.num 7200)⟩ 200 ∧
    FxiaokeResponseParser.parseAuthResponse (.obj [("errorCode", .num 0),
        ("errorMessage", .str "ok"), ("corpId", .str "c"), ("expiresIn", .num 7200)]) =
      .err "Authentication response missing required fields (corpAccessToken, corpId)"
        none none ∧
    FxiaokeResponseParser.parseAuthResponse (.str "nope") =
      .err "Response is not in Fxiaoke API format" none none :=
  ⟨((c3_parseAuthResponse (.obj [("errorCode", .num 0), ("errorMessage", .str "ok"),
      ("corpAccessToken", .str "t"), ("corpId", .str "c"),
      ("expiresIn", .num 7200)])).2 rfl rfl).2 rfl rfl,
   ((c3_parseAuthResponse (.obj [("errorCode", .num 0), ("errorMessage", .str "ok"),
      ("corpId", .str "c"), ("expiresIn", .num 7200)])).2 rfl rfl).1 (Or.inl rfl),
   (c3_parseAuthResponse (.str "nope")).1 rfl⟩

/-- C4 counterexample: from the reachable empty store,
`setProfileValue('default', 'name', 'x')` succeeds (the dynamic open
record lets it overwrite the profile's name), after which no profile is
named `default` and the active-profile pointer dangles — the claimed
invariant is not preserved by every operation. -/
theorem c4_counterexample :
    (ConfigManager.setProfileValue none "default" "name" "x").2 = none ∧
    ¬ ConfigManager.StoreInvariant
        (ConfigManager.load (ConfigManager.setProfileValue none "default" "name" "x").1) :=
  ⟨rfl, by decide⟩

/-- C4 (amended): the Profile Store invariant — a profile named `default`
exists, profile names are unique, and the active-profile pointer
references an existing profile — holds in every persisted state reachable
from the empty store through load, save of an unmodified load,
setCurrentProfile, getProfileValue, and setProfileValue restricted to
keys other than `name` (the unrestricted `setProfileValue` can rename a
profile and break the invariant, see the counterexample).  Loading an
empty/absent store yields a config whose active profile is the `default`
profile with no credential fields set. -/
theorem c4_store_invariant (st : ConfigManager.PState)
    (h : ConfigManager.ReachableNoRename st) :
    ConfigManager.StoreInvariant (ConfigManager.load st) ∧
    ConfigManager.getCurrentProfile none = some [("name", PrimVal.s "default")] := by
  constructor
  · induction h with
    | init => decide
    | resave st0 h0 ih => simpa [ConfigManager.load, ConfigManager.save] using ih
    | setCur st0 name h0 ih =>
      exact ConfigManager.storeInvariant_setCurrentProfile st0 name ih
    | setVal st0 name key value hkey h0 ih =>
      exact ConfigManager.storeInvariant_setProfileValue st0 name key value hkey ih
  · rfl

/-- C4 witness: the amended theorem at the initial (absent) store. -/
theorem c4_witness :
    ConfigManager.StoreInvariant (ConfigManager.load none) ∧
    ConfigManager.getCurrentProfile none = some [("name", PrimVal.s "default")] :=
  c4_store_invariant none ConfigManager.ReachableNoRename.init

/-- C5: for every persisted state and profile name present in the store,
`setProfileValue(name, 'timeout', v)` fails with "Timeout must be a
positive number" — leaving the store unchanged — whenever `v` does not
parse as an integer or parses to a negative value; for v = "1000" it
stores the integer 1000 on the profile and persists the store; for every
key other than `timeout`, the raw string value is stored as a field on
the profile and the store is persisted. -/
theorem c5_setProfileValue_timeout (st : ConfigManager.PState) (name : String)
    (h : (ConfigManager.findProfile (ConfigManager.load st) name).isSome = true) :
    (∀ value, ConfigManager.parseIntJS value = none →
      ConfigManager.setProfileValue st name "timeout" value =
        (st, some "Timeout must be a positive number")) ∧
    (∀ value n, ConfigManager.parseIntJS value = some n → n < 0 →
      ConfigManager.setProfileValue st name "timeout" value =
        (st, some "Timeout must be a positive number")) ∧
    (ConfigManager.setProfileValue st name "timeout" "1000" =
      (ConfigManager.save { ConfigManager.load st with profiles := ConfigManager.updateProfile (ConfigManager.load st).profiles name (fun p => ConfigManager.assocSet p "timeout" (PrimVal.n 1000)) }, none)) ∧
    (∀ p, (ConfigManager.assocSet p "timeout" (PrimVal.n 1000)).lookup "timeout" =
      some (PrimVal.n 1000)) ∧
    (∀ key value, key ≠ "timeout" →
      ConfigManager.setProfileValue st name key value =
        (ConfigManager.save { ConfigManager.load st with profiles := ConfigManager.updateProfile (ConfigManager.load st).profiles name (fun p => ConfigManager.assocSet p key (PrimVal.s value)) }, none) ∧
      ∀ p, (ConfigManager.assocSet p key (PrimVal.s value)).lookup key =
        some (PrimVal.s value)) := by
  refine ⟨?_, ?_, ?_, ?_, ?_⟩
  · intro value hv
    simp [ConfigManager.setProfileValue, h, hv]
  · intro value n hv hneg
    simp [ConfigManager.setProfileValue, h, hv, hneg]
  · have h1000 : ConfigManager.parseIntJS "1000" = some 1000 := by decide
    simp [ConfigManager.setProfileValue, h, h1000]
  · intro p
    exact ConfigManager.assocSet_lookup_self p "timeout" (PrimVal.n 1000)
  · intro key value hk
    exact ⟨by simp [ConfigManager.setProfileValue, h, hk],
      fun p => ConfigManager.assocSet_lookup_self p key (PrimVal.s value)⟩

/-- C5 witness: on the default store, "-5" parses to the negative -5 and
fails with the fixed message leaving the store unchanged, "abc" fails the
parse, and "1000" persists the integer 1000 on the default profile. -/
theorem c5_witness :
    ConfigManager.setProfileValue none "default" "timeout" "-5" =
      (none, some "Timeout must be a positive number") ∧
    ConfigManager.setProfileValue none "default" "timeout" "abc" =
      (none, some "Timeout must be a positive number") ∧
    ConfigManager.setProfileValue none "default" "timeout" "1000" =
      (some { profiles := [[("name", PrimVal.s "default"), ("timeout", PrimVal.n 1000)]],
              currentProfile := "default", defaultTimeout := 30000,
              userAgent := "fx-cli/1.0.0" }, none) :=
  ⟨(c5_setProfileValue_timeout none "default" rfl).2.1 "-5" (-5) (by decide) (by decide),
   (c5_setProfileValue_timeout none "default" rfl).1 "abc" (by decide),
   (c5_setProfileValue_timeout none "default" rfl).2.2.1⟩

/-- C6: setting the active profile to a name not present in the store
fails with exactly "Profile '<name>' not found" and leaves the persisted
store unchanged; when the named profile exists, the operation persists
the config with the new active pointer. -/
theorem c6_setCurrentProfile (st : ConfigManager.PState) (name : String) :
    ((ConfigManager.findProfile (ConfigManager.load st) name).isSome = false →
      ConfigManager.setCurrentProfile st name =
        (st, some ("Profile " ++ squote ++ name ++ squote ++ " not found"))) ∧
    ((ConfigManager.findProfile (ConfigManager.load st) name).isSome = true →
      ConfigManager.setCurrentProfile st name =
        (ConfigManager.save { ConfigManager.load st with currentProfile := name }, none)) := by
  constructor <;> intro hf <;>
    simp [ConfigManager.setCurrentProfile, hf, ConfigManager.profileNotFound]

/-- C6 witness: `setCurrentProfile('nope')` on the store containing only
`default` fails with "Profile 'nope' not found" (squote is the U+0027
apostrophe) and leaves the persisted store unchanged, while switching to
`default` persists the pointer. -/
theorem c6_witness :
    ConfigManager.setCurrentProfile none "nope" =
      (none, some ("Profile " ++ squote ++ "nope" ++ squote ++ " not found")) ∧
    ConfigManager.setCurrentProfile none "default" =
      (some ConfigManager.defaultConfig, none) :=
  ⟨(c6_setCurrentProfile none "nope").1 rfl,
   (c6_setCurrentProfile none "default").2 rfl⟩

/-- C7 counterexample: an object-list response whose `data.objects` is the
scenario's single-element array but whose errorCode is 1 is rejected as an
API error rather than reshaped; and a malformed (out-of-range) numeric
`createTime` makes `new Date(...).toISOString()` throw, so the handler
returns the caught-exception Failure instead of degrading the field to a
default. -/
theorem c7_counterexample :
    ObjectService.handleObjectListResponse (.obj [("errorCode", .num 1),
        ("data", .obj [("objects", .arr [ObjectService.acctRawObject])])]) =
      .failure "API Error: Unknown error" ∧
    ObjectService.handleObjectListResponse (.obj [("errorCode", .num 0),
        ("data", .obj [("objects", .arr [.obj [("createTime", .num 9000000000000000)]])])]) =
      .failure "Failed to parse object list response: Invalid time value" :=
  ⟨rfl, rfl⟩

/-- C7 (amended): for every non-null response whose errorCode is exactly
the number 0 and whose `data.objects` is the single-element array
[{describeApiName: "acct_1", describeDisplayName: "Acct One", defineType:
"custom", createTime: 1700000000000}], the handler succeeds and reshapes
it into exactly one object with id "acct_1", name "Acct One", objectType
"custom" and createdAt the ISO-8601 string "2023-11-14T22:13:20.000Z".
Absent per-object fields degrade to "N/A"/false defaults, but a malformed
(out-of-range) createTime throws internally and produces the Failure
"Failed to parse object list response: Invalid time value" instead of a
default, and a non-zero errorCode produces an "API Error:" Failure. -/
theorem c7_object_list_reshape (raw : Json) (df : List (String × Json))
    (hnull : jsIsNull raw = false)
    (hzero : FxiaokeResponseParser.errorCodeIsZero raw = true)
    (hdata : jsGet raw "data" = some (.obj df))
    (hobjs : List.lookup "objects" df = some (.arr [ObjectService.acctRawObject])) :
    (∃ r, ObjectService.handleObjectListResponse raw = .success r 200 ∧
      r.objects = [ObjectService.acctReshaped]) ∧
    (ObjectService.reshapeObject (.obj []) =
      .ok (.obj [("id", .str "N/A"), ("name", .str "N/A"), ("objectType", .str "N/A"),
        ("createdAt", .str "N/A"), ("updatedAt", .str "N/A"), ("isActive", .bool false)])) ∧
    (ObjectService.handleObjectListResponse (.obj [("errorCode", .num 0),
        ("data", .obj [("objects", .arr [.obj [("createTime", .num 9000000000000000)]])])]) =
      .failure "Failed to parse object list response: Invalid time value") := by
  refine ⟨?_, rfl, rfl⟩
  have hext : ObjectService.extractObjects raw = .ok [ObjectService.acctReshaped] := by
    unfold ObjectService.extractObjects
    rw [hdata]
    have hg : jsGet (Json.obj df) "objects" = some (.arr [ObjectService.acctRawObject]) := hobjs
    simp only [isTruthyObject, if_true, hg]
    rfl
  simp only [ObjectService.handleObjectListResponse, hnull, hzero, Bool.false_eq_true,
    if_false, if_true, hext]
  exact ⟨_, rfl, rfl⟩

/-- C7 witness: the amended theorem at the concrete scenario response. -/
theorem c7_witness :
    ∃ r, ObjectService.handleObjectListResponse (.obj [("errorCode", .num 0),
        ("data", .obj [("objects", .arr [ObjectService.acctRawObject])])]) =
      .success r 200 ∧ r.objects = [ObjectService.acctReshaped] :=
  (c7_object_list_reshape
    (.obj [("errorCode", .num 0),
      ("data", .obj [("objects", .arr [ObjectService.acctRawObject])])])
    [("objects", .arr [ObjectService.acctRawObject])] rfl rfl rfl rfl).1

/-- C8 counterexample: on the identity-lookup response with errorCode 0,
empList = [null] and a top-level userId "u2", the `openUserId` read off
the null element throws a TypeError that the catch converts to a
"Get user ID error:" failure — the code does not fall back to userId as
the claim's fallback policy asserts. -/
theorem c8_counterexample :
    ObjectService.getCurrentOpenUserIdExtract (.obj [("errorCode", .num 0),
      ("empList", .arr [.null]), ("userId", .str "u2")]) =
        .failure ("Get user ID error: " ++ ObjectService.nullReadOpenUserIdMsg) ∧
    ObjectService.getCurrentOpenUserIdExtract (.obj [("errorCode", .num 0),
      ("empList", .arr [.null]), ("userId", .str "u2")]) ≠
        .success "u2" 200 :=
  ⟨rfl, by decide⟩

/-- C8 (amended): for every identity-lookup response (non-null, errorCode
exactly 0): when the first element of an `empList` array is non-null and
carries a non-empty string `openUserId`, the extraction returns it; when
that first element is `null`, the `openUserId` read throws and the
operation fails with the caught "Get user ID error: Cannot read
properties of null (reading 'openUserId')" instead of falling back; when
the `empList` candidate is read but is falsy or absent, the fallback
chain `currentOpenUserId` then `userId` then `id` (first truthy match)
supplies the result when it is a non-empty string; and when the candidate
is falsy and the fallback chain yields nothing truthy, the operation
fails with "Response missing currentOpenUserId". -/
theorem c8_identity_extraction (raw : Json) (hnull : jsIsNull raw = false)
    (hzero : FxiaokeResponseParser.errorCodeIsZero raw = true) :
    (∀ e rest s, jsGet raw "empList" = some (.arr (e :: rest)) →
      jsGet e "openUserId" = some (.str s) → s ≠ "" →
      ObjectService.getCurrentOpenUserIdExtract raw = .success s 200) ∧
    (ObjectService.empCandidate raw = .throws →
      ObjectService.getCurrentOpenUserIdExtract raw =
        .failure ("Get user ID error: " ++ ObjectService.nullReadOpenUserIdMsg)) ∧
    (∀ v, ObjectService.empCandidate raw = .value v → truthyOpt v = false →
      (∀ s, ObjectService.fallbackChain raw = some (.str s) → s ≠ "" →
        ObjectService.getCurrentOpenUserIdExtract raw = .success s 200) ∧
      (truthyOpt (ObjectService.fallbackChain raw) = false →
        ObjectService.getCurrentOpenUserIdExtract raw =
          .failure "Response missing currentOpenUserId")) := by
  refine ⟨?_, ?_, ?_⟩
  · intro e rest s he ho hs
    have hen : jsIsNull e = false := by
      cases e <;> simp_all [jsGet, jsIsNull]
    have hc : ObjectService.empCandidate raw = .value (some (.str s)) := by
      unfold ObjectService.empCandidate
      rw [he]
      simp [hen, ho]
    simp [ObjectService.getCurrentOpenUserIdExtract, hnull, hzero, hc, truthyOpt, truthy, hs]
  · intro hthrows
    simp [ObjectService.getCurrentOpenUserIdExtract, hnull, hzero, hthrows]
  · intro v hv hempty
    constructor
    · intro s hfb hs
      simp [ObjectService.getCurrentOpenUserIdExtract, hnull, hzero, hv, hempty, hfb, hs]
    · intro hfall
      rcases hfb : ObjectService.fallbackChain raw with _ | w
      · rcases v with _ | v0
        · simp [ObjectService.getCurrentOpenUserIdExtract, hnull, hzero, hv, hfb]
        · cases v0 <;>
            simp_all [ObjectService.getCurrentOpenUserIdExtract, hnull, hzero, hfb, hv,
              truthyOpt, truthy]
      · rw [hfb] at hfall
        cases w <;>
          (rcases v with _ | v0
           · simp_all [ObjectService.getCurrentOpenUserIdExtract, truthyOpt, truthy]
           · cases v0 <;> simp_all [ObjectService.getCurrentOpenUserIdExtract, truthyOpt, truthy])

/-- C8 witness: the amended theorem at a response with an `empList` match,
at one whose first `empList` element is null, at one that falls back to
the top-level `userId`, and at one with no identity. -/
theorem c8_witness :
    ObjectService.getCurrentOpenUserIdExtract (.obj [("errorCode", .num 0),
      ("empList", .arr [.obj [("openUserId", .str "u1")]])]) = .success "u1" 200 ∧
    ObjectService.getCurrentOpenUserIdExtract (.obj [("errorCode", .num 0),
      ("empList", .arr [.null])]) =
        .failure ("Get user ID error: " ++ ObjectService.nullReadOpenUserIdMsg) ∧
    ObjectService.getCurrentOpenUserIdExtract (.obj [("errorCode", .num 0),
      ("userId", .str "u2")]) = .success "u2" 200 ∧
    ObjectService.getCurrentOpenUserIdExtract (.obj [("errorCode", .num 0)]) =
      .failure "Response missing currentOpenUserId" :=
  ⟨(c8_identity_extraction (.obj [("errorCode", .num 0),
      ("empList", .arr [.obj [("openUserId", .str "u1")]])]) rfl rfl).1
      (.obj [("openUserId", .str "u1")]) [] "u1" rfl rfl (by decide),
   (c8_identity_extraction (.obj [("errorCode", .num 0),
      ("empList", .arr [.null])]) rfl rfl).2.1 rfl,
   ((c8_identity_extraction (.obj [("errorCode", .num 0),
      ("userId", .str "u2")]) rfl rfl).2.2 none rfl rfl).1 "u2" rfl (by decide),
   ((c8_identity_extraction (.obj [("errorCode", .num 0)]) rfl rfl).2.2 none rfl rfl).2 rfl⟩

/-- C9 counterexample: the persisted document `{}` loads as the full
default config, so saving that unmodified load produces the four-key
default document — not a document byte-equivalent to `{}` under any key
ordering. -/
theorem c9_counterexample :
    ConfigDoc.loadDoc (some (.obj [])) = .obj ConfigDoc.defaultConfigFields ∧
    ConfigDoc.saveDoc (ConfigDoc.loadDoc (some (.obj []))) =
      some (.obj ConfigDoc.defaultConfigFields) ∧
    Json.obj ConfigDoc.defaultConfigFields ≠ .obj [] :=
  ⟨rfl, rfl, by simp [ConfigDoc.defaultConfigFields]⟩

/-- C9 (amended): `save(load())` is idempotent as an operation on
persisted documents — applying it twice produces exactly the document
produced by applying it once, for every starting state.  Consequently,
for every document that `save(load())` itself produced (in particular
every document the store persisted), saving an unmodified load reproduces
the document byte-for-byte; a partial document such as `{}` instead gains
the missing default keys on the first pass (see the counterexample). -/
theorem c9_save_load_idempotent (st : Option Json) :
    ConfigDoc.saveDoc (ConfigDoc.loadDoc (ConfigDoc.saveDoc (ConfigDoc.loadDoc st))) =
      ConfigDoc.saveDoc (ConfigDoc.loadDoc st) :=
  congrArg ConfigDoc.saveDoc (ConfigDoc.loadDoc_idem st)

/-- C10 counterexample: the null payload lacks any errorCode field, yet
both handlers reject it through the internal catch (the property read off
null throws a TypeError), producing error strings whose first ten characters are not
"API Error:" — they do not begin with the claimed prefix. -/
theorem c10_counterexample :
    ObjectService.getCurrentOpenUserIdExtract Json.null =
      .failure ("Get user ID error: " ++ ObjectService.nullReadErrorCodeMsg) ∧
    ObjectService.handleObjectListResponse Json.null =
      .failure ("Failed to parse object list response: " ++ ObjectService.nullReadErrorCodeMsg) ∧
    ("Get user ID error: " ++ ObjectService.nullReadErrorCodeMsg).toList.take 10 ≠
      "API Error:".toList ∧
    ("Failed to parse object list response: "
      ++ ObjectService.nullReadErrorCodeMsg).toList.take 10 ≠ "API Error:".toList :=
  ⟨rfl, rfl, by decide, by decide⟩

/-- C10 (amended): for every non-null payload whose top-level errorCode
field is absent or is any value other than the number 0, both the
identity-resolution handler and the object-list handler return Failure
with the error string "API Error: " followed by the payload's
errorMessage, its errorDescription, or "Unknown error" when neither is
truthy — in particular the string begins with "API Error:" — rather than
treating the payload as an opaque success. -/
theorem c10_error_envelope_rejection (p : Json) (hnull : jsIsNull p = false)
    (hcode : FxiaokeResponseParser.errorCodeIsZero p = false) :
    ObjectService.getCurrentOpenUserIdExtract p =
      .failure ("API Error: " ++ ObjectService.apiErrorMsg p) ∧
    ObjectService.handleObjectListResponse p =
      .failure ("API Error: " ++ ObjectService.apiErrorMsg p) ∧
    (jsGet p "errorMessage" = none → jsGet p "errorDescription" = none →
      ObjectService.apiErrorMsg p = "Unknown error") ∧
    (∃ rest, "API Error: " ++ ObjectService.apiErrorMsg p = "API Error:" ++ rest) := by
  refine ⟨?_, ?_, ?_, ⟨" " ++ ObjectService.apiErrorMsg p, ?_⟩⟩
  · simp [ObjectService.getCurrentOpenUserIdExtract, hnull, hcode]
  · simp [ObjectService.handleObjectListResponse, hnull, hcode]
  · intro h1 h2
    simp [ObjectService.apiErrorMsg, h1, h2, jsOrValue, jsToString]
  · have hsplit : ("API Error: " : String) = "API Error:" ++ " " := by decide
    exact congrArg (fun t => t ++ ObjectService.apiErrorMsg p) hsplit

/-- C10 witness: the amended theorem at the payload with errorCode 5 and
no error message, and at a payload with no errorCode at all. -/
theorem c10_witness :
    ObjectService.getCurrentOpenUserIdExtract (.obj [("errorCode", .num 5)]) =
      .failure ("API Error: " ++ ObjectService.apiErrorMsg (.obj [("errorCode", .num 5)])) ∧
    ObjectService.apiErrorMsg (.obj [("errorCode", .num 5)]) = "Unknown error" ∧
    ObjectService.handleObjectListResponse (.obj [("note", .str "no envelope")]) =
      .failure ("API Error: "
        ++ ObjectService.apiErrorMsg (.obj [("note", .str "no envelope")])) :=
  ⟨(c10_error_envelope_rejection (.obj [("errorCode", .num 5)]) rfl rfl).1,
   (c10_error_envelope_rejection (.obj [("errorCode", .num 5)]) rfl rfl).2.2.1 rfl rfl,
   (c10_error_envelope_rejection (.obj [("note", .str "no envelope")]) rfl rfl).2.1⟩
